import Mathlib

/-!
Verification of the Game-of-Life core of the `dosdoseis` repository
(`src/game.c`, `src/patterns.c`) against its written specification.

The C code is shallowly embedded: the `Game` struct becomes a Lean
structure holding the two cell buffers as `List Int`; each C function
becomes a pure Lean function on that structure (stateful writes become
functional updates of the buffers).  C `int` values are modelled as
`Int` (the quantities involved — coordinates, neighbor counts, cell
values 0/1 — never approach 32-bit overflow on the inputs considered).
The entropy source of `game_randomize` (`rand()/RAND_MAX` in C) is an
external collaborator; it is modelled as an injected draw function
returning rationals, exactly as the specification treats it.
-/

namespace DosDoseis

/-- The `Game` struct of `game.h`: dimensions plus the two linear cell
buffers (`cells` = current generation, `next` = scratch).  The C struct
holds `int *` pointers to `width*height` ints; here each buffer is a
`List Int` addressed by `index = y * width + x` (row-major). -/
structure Game where
  width : Int
  height : Int
  cells : List Int
  next : List Int
deriving Repr, DecidableEq

/-- `game_create` of `game.c`.  The C code mallocs the struct, stores
`width` and `height` unchecked, and callocs two zeroed buffers of
`width*height` ints; it returns NULL exactly when an allocation fails.
Allocation success is an environment fact, not program logic, so it is
passed in as the flag `allocOk`; `none` models the NULL return.  The
buffer length `(width * height).toNat` reflects the `calloc(size, …)`
call: `size = width * height` as a C `int`, converted to the unsigned
`size_t` (for the inputs considered `size` is nonnegative, where the
conversion is value-preserving; a negative `size` would make `calloc`
fail, i.e. `allocOk = false`). -/
def game_create (width height : Int) (allocOk : Bool) : Option Game :=
  if allocOk then
    let size := width * height
    some { width := width, height := height,
           cells := List.replicate size.toNat 0,
           next := List.replicate size.toNat 0 }
  else
    none

/-- `game_get_cell` of `game.c`: bounds-checked read of the current
buffer; out-of-range coordinates read as 0 (dead borders).  In-range
reads index `cells[y*width + x]`; `getD … 0` supplies the (never used
on well-formed grids) default for an out-of-bounds list index. -/
def game_get_cell (g : Game) (x y : Int) : Int :=
  if x < 0 ∨ x ≥ g.width ∨ y < 0 ∨ y ≥ g.height then 0
  else g.cells.getD (y * g.width + x).toNat 0

/-- `game_set_cell` of `game.c`: bounds-checked write of the current
buffer, normalizing the value with `alive ? 1 : 0`; out-of-range
coordinates are ignored (the grid is returned unchanged). -/
def game_set_cell (g : Game) (x y alive : Int) : Game :=
  if x < 0 ∨ x ≥ g.width ∨ y < 0 ∨ y ≥ g.height then g
  else { g with cells := g.cells.set (y * g.width + x).toNat (if alive = 0 then 0 else 1) }

/-- `game_clear` of `game.c`: `memset` of both buffers over
`width * height` ints, i.e. both buffers become all-zero. -/
def game_clear (g : Game) : Game :=
  { g with cells := List.replicate (g.width * g.height).toNat 0,
           next := List.replicate (g.width * g.height).toNat 0 }

/-- `count_neighbors` of `game.c`: the double loop over
`(dx, dy) ∈ [-1,1]²` skipping `(0,0)`, unrolled in its `dy`-major
iteration order, summing the bounds-checked reads. -/
def count_neighbors (g : Game) (x y : Int) : Int :=
  game_get_cell g (x - 1) (y - 1) + game_get_cell g x (y - 1) +
    game_get_cell g (x + 1) (y - 1) +
    game_get_cell g (x - 1) y + game_get_cell g (x + 1) y +
    game_get_cell g (x - 1) (y + 1) + game_get_cell g x (y + 1) +
    game_get_cell g (x + 1) (y + 1)

/-- The body of `game_step`'s loop for one cell `(x, y)`: Conway's rule
applied to the current generation.  `alive` is read directly from the
current buffer (`g->cells[y*width+x]`) and tested for non-zero. -/
def stepCell (g : Game) (x y : Int) : Int :=
  let n := count_neighbors g x y
  let alive := g.cells.getD (y * g.width + x).toNat 0
  if alive ≠ 0 then (if n = 2 ∨ n = 3 then 1 else 0)
  else (if n = 3 then 1 else 0)

/-- The buffer written by a row-major double loop that stores
`f x y` at `next[y*width + x]` for every `y ∈ [0, rows)`,
`x ∈ [0, w)`.  Those writes hit exactly the indices
`0, 1, …, rows*w - 1` in increasing order, so the written buffer is
the concatenation of the rows. -/
def buildCells (w : Nat) (f : Int → Int → Int) : Nat → List Int
  | 0 => []
  | n + 1 => buildCells w f n ++ (List.range w).map (fun (x : Nat) => f (x : Int) (n : Int))

/-- `game_step` of `game.c`: the full pass writes the rule's result for
every cell into the `next` buffer (see `buildCells`), then the trailing
pointer swap makes that buffer current and recycles the old current
buffer as the new scratch. -/
def game_step (g : Game) : Game :=
  { g with cells := buildCells g.width.toNat (stepCell g) g.height.toNat,
           next := g.cells }

/-- The per-cell write of `game_randomize`: `(r < density) ? 1 : 0`
where `r` is the draw for that cell. -/
def randCell (density : ℚ) (draw : Int → Int → ℚ) (x y : Int) : Int :=
  if draw x y < density then 1 else 0

/-- `game_randomize` of `game.c`: for every cell, draw a value from the
injected random source and store `(r < density) ? 1 : 0` at
`cells[y*width + x]` — the same full row-major write pass as
`game_step`, targeting the current buffer. -/
def game_randomize (g : Game) (density : ℚ) (draw : Int → Int → ℚ) : Game :=
  { g with cells := buildCells g.width.toNat (randCell density draw) g.height.toNat }

/-- The `PatternType` enum of `patterns.h`. -/
inductive PatternType where
  | PATTERN_GLIDER
  | PATTERN_BLINKER
  | PATTERN_TOAD
  | PATTERN_BEACON
  | PATTERN_PULSAR
  | PATTERN_GOSPER_GUN
deriving Repr, DecidableEq

/-- `set_cells` of `patterns.c`: iterate over the relative coordinate
pairs in order, calling `game_set_cell` with the offset applied and
`alive = 1` for each. -/
def set_cells (g : Game) (ox oy : Int) (coords : List (Int × Int)) : Game :=
  coords.foldl (fun g' c => game_set_cell g' (ox + c.1) (oy + c.2) 1) g

/-- `place_glider` of `patterns.c` (coordinate table verbatim). -/
def place_glider (g : Game) (x y : Int) : Game :=
  set_cells g x y [(1,0),(2,1),(0,2),(1,2),(2,2)]

/-- `place_blinker` of `patterns.c` (coordinate table verbatim). -/
def place_blinker (g : Game) (x y : Int) : Game :=
  set_cells g x y [(0,0),(1,0),(2,0)]

/-- `place_toad` of `patterns.c` (coordinate table verbatim). -/
def place_toad (g : Game) (x y : Int) : Game :=
  set_cells g x y [(1,0),(2,0),(3,0),(0,1),(1,1),(2,1)]

/-- `place_beacon` of `patterns.c` (coordinate table verbatim). -/
def place_beacon (g : Game) (x y : Int) : Game :=
  set_cells g x y [(0,0),(1,0),(0,1),(3,2),(2,3),(3,3)]

/-- `place_pulsar` of `patterns.c` (48-entry coordinate table verbatim). -/
def place_pulsar (g : Game) (x y : Int) : Game :=
  set_cells g x y
    [(2,0),(3,0),(4,0),(8,0),(9,0),(10,0),
     (0,2),(5,2),(7,2),(12,2),
     (0,3),(5,3),(7,3),(12,3),
     (0,4),(5,4),(7,4),(12,4),
     (2,5),(3,5),(4,5),(8,5),(9,5),(10,5),
     (2,7),(3,7),(4,7),(8,7),(9,7),(10,7),
     (0,8),(5,8),(7,8),(12,8),
     (0,9),(5,9),(7,9),(12,9),
     (0,10),(5,10),(7,10),(12,10),
     (2,12),(3,12),(4,12),(8,12),(9,12),(10,12)]

/-- `place_gosper_gun` of `patterns.c` (36-entry coordinate table verbatim). -/
def place_gosper_gun (g : Game) (x y : Int) : Game :=
  set_cells g x y
    [(0,4),(0,5),(1,4),(1,5),
     (10,4),(10,5),(10,6),(11,3),(11,7),(12,2),(12,8),(13,2),(13,8),
     (14,5),(15,3),(15,7),(16,4),(16,5),(16,6),(17,5),
     (20,2),(20,3),(20,4),(21,2),(21,3),(21,4),(22,1),(22,5),
     (24,0),(24,1),(24,5),(24,6),
     (34,2),(34,3),(35,2),(35,3)]

/-- `pattern_load` of `patterns.c`: dispatch on the enum to the
corresponding static placer. -/
def pattern_load (g : Game) (t : PatternType) (x y : Int) : Game :=
  match t with
  | .PATTERN_GLIDER => place_glider g x y
  | .PATTERN_BLINKER => place_blinker g x y
  | .PATTERN_TOAD => place_toad g x y
  | .PATTERN_BEACON => place_beacon g x y
  | .PATTERN_PULSAR => place_pulsar g x y
  | .PATTERN_GOSPER_GUN => place_gosper_gun g x y

/-- `pattern_from_name` of `patterns.c`: the `strcmp` chain.  The C
function takes `PatternType *out`, returns 1 and writes `*out` on a
match, returns 0 leaving `*out` alone otherwise; it is modelled as a
function from the name and the pre-call contents of `*out` to the pair
(return value, post-call contents of `*out`). -/
def pattern_from_name (name : String) (out : PatternType) : Int × PatternType :=
  if name = "glider" then (1, PatternType.PATTERN_GLIDER)
  else if name = "blinker" then (1, PatternType.PATTERN_BLINKER)
  else if name = "toad" then (1, PatternType.PATTERN_TOAD)
  else if name = "beacon" then (1, PatternType.PATTERN_BEACON)
  else if name = "pulsar" then (1, PatternType.PATTERN_PULSAR)
  else if name = "gosper" then (1, PatternType.PATTERN_GOSPER_GUN)
  else if name = "gosper_gun" then (1, PatternType.PATTERN_GOSPER_GUN)
  else (0, out)

end DosDoseis

namespace DosDoseis

/-! ### Basic lemmas about the embedding -/

theorem game_get_cell_of_not_in_range (g : Game) (x y : Int)
    (h : x < 0 ∨ x ≥ g.width ∨ y < 0 ∨ y ≥ g.height) :
    game_get_cell g x y = 0 := by
  simp [game_get_cell, h]

theorem game_set_cell_of_not_in_range (g : Game) (x y alive : Int)
    (h : x < 0 ∨ x ≥ g.width ∨ y < 0 ∨ y ≥ g.height) :
    game_set_cell g x y alive = g := by
  simp [game_set_cell, h]

/-! ### Claims about coordinate boundary behavior -/

/-- C3: for every grid and every coordinate with
`x < 0 ∨ x ≥ width ∨ y < 0 ∨ y ≥ height`, `get_cell` returns dead (0). -/
theorem get_cell_out_of_range_dead (g : Game) (x y : Int)
    (h : x < 0 ∨ x ≥ g.width ∨ y < 0 ∨ y ≥ g.height) :
    game_get_cell g x y = 0 :=
  game_get_cell_of_not_in_range g x y h

theorem get_cell_out_of_range_dead_witness :
    ((-1 : Int) < 0 ∨ (-1 : Int) ≥ (2 : Int) ∨ (0 : Int) < 0 ∨ (0 : Int) ≥ (2 : Int)) ∧
      game_get_cell ⟨2, 2, [1, 1, 1, 1], [0, 0, 0, 0]⟩ (-1) 0 = 0 :=
  ⟨by decide, get_cell_out_of_range_dead ⟨2, 2, [1, 1, 1, 1], [0, 0, 0, 0]⟩ (-1) 0 (by decide)⟩

/-- C5: for every grid, every out-of-range coordinate and every alive
value, `set_cell` leaves the grid completely unchanged (so in
particular every in-range cell reads the same before and after), and
no error is reported. -/
theorem set_cell_out_of_range_no_effect (g : Game) (x y alive : Int)
    (h : x < 0 ∨ x ≥ g.width ∨ y < 0 ∨ y ≥ g.height) :
    game_set_cell g x y alive = g ∧
      ∀ u v : Int, game_get_cell (game_set_cell g x y alive) u v = game_get_cell g u v := by
  have he := game_set_cell_of_not_in_range g x y alive h
  exact ⟨he, fun u v => by rw [he]⟩

theorem set_cell_out_of_range_no_effect_witness :
    ((2 : Int) < 0 ∨ (2 : Int) ≥ (2 : Int) ∨ (0 : Int) < 0 ∨ (0 : Int) ≥ (2 : Int)) ∧
      game_set_cell ⟨2, 2, [1, 0, 0, 1], [0, 0, 0, 0]⟩ 2 0 1 = ⟨2, 2, [1, 0, 0, 1], [0, 0, 0, 0]⟩ :=
  ⟨by decide,
    (set_cell_out_of_range_no_effect ⟨2, 2, [1, 0, 0, 1], [0, 0, 0, 0]⟩ 2 0 1 (by decide)).1⟩

/-! ### Indexing the buffer written by a full row-major pass -/

theorem buildCells_length (w : Nat) (f : Int → Int → Int) (n : Nat) :
    (buildCells w f n).length = n * w := by
  induction n with
  | zero => simp [buildCells]
  | succ n ih => simp [buildCells, ih, Nat.succ_mul]

theorem buildCells_getD (w : Nat) (f : Int → Int → Int) (n : Nat) (x y : Nat)
    (hx : x < w) (hy : y < n) :
    (buildCells w f n).getD (y * w + x) 0 = f (x : Int) (y : Int) := by
  induction n with
  | zero => omega
  | succ n ih =>
    rw [buildCells]
    rcases Nat.lt_or_ge y n with h | h
    · rw [List.getD_append]
      · exact ih h
      · rw [buildCells_length]
        calc y * w + x < (y + 1) * w := by rw [Nat.succ_mul]; omega
          _ ≤ n * w := Nat.mul_le_mul_right w h
    · have hyn : y = n := by omega
      subst hyn
      have hlen := buildCells_length w f y
      rw [List.getD_append_right _ _ _ _ (by omega)]
      have hsub : y * w + x - (buildCells w f y).length = x := by omega
      rw [hsub, List.getD_eq_getElem _ _ (by simpa using hx), List.getElem_map,
        List.getElem_range]

/-- Reading a cell of a grid whose current buffer was produced by a
full row-major pass writing `f x y` at every in-range `(x, y)`. -/
theorem game_get_cell_of_buildCells (g : Game) (f : Int → Int → Int) (x y : Int)
    (hcells : g.cells = buildCells g.width.toNat f g.height.toNat)
    (hx0 : 0 ≤ x) (hxw : x < g.width) (hy0 : 0 ≤ y) (hyh : y < g.height) :
    game_get_cell g x y = f x y := by
  obtain ⟨a, rfl⟩ : ∃ a : Nat, x = (a : Int) := ⟨x.toNat, (Int.toNat_of_nonneg hx0).symm⟩
  obtain ⟨b, rfl⟩ : ∃ b : Nat, y = (b : Int) := ⟨y.toNat, (Int.toNat_of_nonneg hy0).symm⟩
  have hw : g.width = (g.width.toNat : Int) := by omega
  have hh : g.height = (g.height.toNat : Int) := by omega
  have ha : a < g.width.toNat := by omega
  have hb : b < g.height.toNat := by omega
  have hidx : ((b : Int) * g.width + (a : Int)).toNat = b * g.width.toNat + a := by
    rw [hw]; norm_cast
  rw [game_get_cell, if_neg (by omega), hcells, hidx]
  exact buildCells_getD g.width.toNat f g.height.toNat a b ha hb

/-- C1: one call to `step` gives every in-range cell `(x, y)` the value
prescribed by Conway's rule evaluated against the current generation
only (the right-hand side reads only the pre-step grid `g`): an alive
cell survives iff its 8-Moore-neighborhood live count is 2 or 3, a dead
cell becomes alive iff that count is exactly 3, out-of-grid neighbors
counting 0 via `game_get_cell`'s boundary policy — a synchronous,
simultaneous update. -/
theorem step_applies_conway_rule_synchronously (g : Game) (x y : Int)
    (hx0 : 0 ≤ x) (hxw : x < g.width) (hy0 : 0 ≤ y) (hyh : y < g.height) :
    game_get_cell (game_step g) x y =
      if game_get_cell g x y ≠ 0 then
        (if count_neighbors g x y = 2 ∨ count_neighbors g x y = 3 then 1 else 0)
      else (if count_neighbors g x y = 3 then 1 else 0) := by
  have h := game_get_cell_of_buildCells (game_step g) (stepCell g) x y rfl hx0 hxw hy0 hyh
  have hg : game_get_cell g x y = g.cells.getD (y * g.width + x).toNat 0 := by
    rw [game_get_cell, if_neg (by omega)]
  rw [h, hg, stepCell]

theorem step_applies_conway_rule_synchronously_witness :
    game_get_cell (game_step ⟨2, 2, [1, 1, 0, 0], [0, 0, 0, 0]⟩) 0 0 =
      if game_get_cell ⟨2, 2, [1, 1, 0, 0], [0, 0, 0, 0]⟩ 0 0 ≠ 0 then
        (if count_neighbors ⟨2, 2, [1, 1, 0, 0], [0, 0, 0, 0]⟩ 0 0 = 2 ∨
            count_neighbors ⟨2, 2, [1, 1, 0, 0], [0, 0, 0, 0]⟩ 0 0 = 3 then 1 else 0)
      else (if count_neighbors ⟨2, 2, [1, 1, 0, 0], [0, 0, 0, 0]⟩ 0 0 = 3 then 1 else 0) :=
  step_applies_conway_rule_synchronously ⟨2, 2, [1, 1, 0, 0], [0, 0, 0, 0]⟩ 0 0
    (by decide) (by decide) (by decide) (by decide)

/-! ### Claims about `game_randomize` -/

/-- C7: with an injected random source whose every draw lies in
`[0, 1)`, `randomize(0.0)` makes every cell of the grid dead and
`randomize(1.0)` makes every cell alive; in general each cell is set
alive iff its draw is strictly less than `density`. -/
theorem randomize_density_extremes (g : Game) (draw : Int → Int → ℚ)
    (hdraw : ∀ x y : Int, 0 ≤ draw x y ∧ draw x y < 1) :
    (∀ x y : Int, 0 ≤ x → x < g.width → 0 ≤ y → y < g.height →
        game_get_cell (game_randomize g 0 draw) x y = 0) ∧
      (∀ x y : Int, 0 ≤ x → x < g.width → 0 ≤ y → y < g.height →
        game_get_cell (game_randomize g 1 draw) x y = 1) ∧
      (∀ (density : ℚ) (x y : Int), 0 ≤ x → x < g.width → 0 ≤ y → y < g.height →
        game_get_cell (game_randomize g density draw) x y =
          if draw x y < density then 1 else 0) := by
  refine ⟨fun x y hx0 hxw hy0 hyh => ?_, fun x y hx0 hxw hy0 hyh => ?_,
    fun density x y hx0 hxw hy0 hyh => ?_⟩
  · rw [game_get_cell_of_buildCells (game_randomize g 0 draw) (randCell 0 draw) x y rfl
      hx0 hxw hy0 hyh]
    rw [randCell, if_neg (not_lt.mpr (hdraw x y).1)]
  · rw [game_get_cell_of_buildCells (game_randomize g 1 draw) (randCell 1 draw) x y rfl
      hx0 hxw hy0 hyh]
    rw [randCell, if_pos (hdraw x y).2]
  · rw [game_get_cell_of_buildCells (game_randomize g density draw) (randCell density draw)
      x y rfl hx0 hxw hy0 hyh]
    rw [randCell]

/-- A 1×1 grid used to instantiate hypotheses of the general theorems. -/
def gOne : Game := ⟨1, 1, [0], [0]⟩

/-- A constant injected random source drawing 1/2 for every cell. -/
def drawHalf : Int → Int → ℚ := fun _ _ => 1 / 2

theorem randomize_density_extremes_witness :
    game_get_cell (game_randomize gOne 0 drawHalf) 0 0 = 0 ∧
      game_get_cell (game_randomize gOne 1 drawHalf) 0 0 = 1 :=
  ⟨(randomize_density_extremes gOne drawHalf
      (fun _ _ => ⟨by norm_num [drawHalf], by norm_num [drawHalf]⟩)).1 0 0
      (by decide) (by decide) (by decide) (by decide),
    (randomize_density_extremes gOne drawHalf
      (fun _ _ => ⟨by norm_num [drawHalf], by norm_num [drawHalf]⟩)).2.1 0 0
      (by decide) (by decide) (by decide) (by decide)⟩

/-! ### The blinker oscillation -/

/-- The row-major list of the alive (nonzero) in-range cell
coordinates of a grid, read through `game_get_cell`. -/
def aliveList (g : Game) : List (Int × Int) :=
  (List.range g.height.toNat).flatMap (fun (y : Nat) =>
    (List.range g.width.toNat).filterMap (fun (x : Nat) =>
      if game_get_cell g (x : Int) (y : Int) ≠ 0 then some ((x : Int), (y : Int)) else none))

/-- The all-dead 10×10 grid that `game_create 10 10` returns. -/
def grid10 : Game := ⟨10, 10, List.replicate 100 0, List.replicate 100 0⟩

/-- The 10×10 grid with the blinker pattern placed at origin (3,3). -/
def blinkerGrid : Game := pattern_load grid10 PatternType.PATTERN_BLINKER 3 3

/-- C4: on the freshly created 10×10 grid, placing the blinker at
(3,3) makes exactly (3,3),(4,3),(5,3) alive; after one step exactly
(4,2),(4,3),(4,4) are alive; after a second step exactly
(3,3),(4,3),(5,3) are alive again, and the current-generation buffer
is exactly the one before the two steps — period 2. -/
theorem blinker_period_two :
    game_create 10 10 true = some grid10 ∧
      aliveList blinkerGrid = [(3, 3), (4, 3), (5, 3)] ∧
      aliveList (game_step blinkerGrid) = [(4, 2), (4, 3), (4, 4)] ∧
      aliveList (game_step (game_step blinkerGrid)) = [(3, 3), (4, 3), (5, 3)] ∧
      (game_step (game_step blinkerGrid)).cells = blinkerGrid.cells ∧
      (game_step (game_step blinkerGrid)).width = blinkerGrid.width ∧
      (game_step (game_step blinkerGrid)).height = blinkerGrid.height :=
  ⟨rfl, by decide, by decide, by decide, by decide, rfl, rfl⟩

/-! ### The binary-cell invariant -/

/-- Every value of the current-generation buffer is 0 or 1. -/
def binaryCells (g : Game) : Prop := ∀ v ∈ g.cells, v = 0 ∨ v = 1

theorem binaryCells_set_cell (g : Game) (x y alive : Int) (hg : binaryCells g) :
    binaryCells (game_set_cell g x y alive) := by
  unfold binaryCells game_set_cell
  split
  · exact hg
  · intro v hv
    rcases List.mem_or_eq_of_mem_set hv with h | h
    · exact hg v h
    · split at h
      · exact Or.inl h
      · exact Or.inr h

theorem binaryCells_clear (g : Game) : binaryCells (game_clear g) := by
  intro v hv
  exact Or.inl (List.eq_of_mem_replicate hv)

theorem buildCells_mem_binary (w : Nat) (f : Int → Int → Int)
    (hf : ∀ x y : Int, f x y = 0 ∨ f x y = 1) (n : Nat) :
    ∀ v ∈ buildCells w f n, v = 0 ∨ v = 1 := by
  induction n with
  | zero => intro v hv; simp [buildCells] at hv
  | succ n ih =>
    intro v hv
    rw [buildCells] at hv
    rcases List.mem_append.mp hv with h | h
    · exact ih v h
    · obtain ⟨a, _, rfl⟩ := List.mem_map.mp h
      exact hf _ _

theorem stepCell_binary (g : Game) (x y : Int) :
    stepCell g x y = 0 ∨ stepCell g x y = 1 := by
  simp only [stepCell]
  split <;> split <;> simp

theorem randCell_binary (density : ℚ) (draw : Int → Int → ℚ) (x y : Int) :
    randCell density draw x y = 0 ∨ randCell density draw x y = 1 := by
  simp only [randCell]
  split <;> simp

theorem binaryCells_step (g : Game) : binaryCells (game_step g) := by
  intro v hv
  exact buildCells_mem_binary g.width.toNat (stepCell g) (stepCell_binary g) g.height.toNat v hv

theorem binaryCells_randomize (g : Game) (density : ℚ) (draw : Int → Int → ℚ) :
    binaryCells (game_randomize g density draw) := by
  intro v hv
  exact buildCells_mem_binary g.width.toNat (randCell density draw)
    (randCell_binary density draw) g.height.toNat v hv

theorem binaryCells_set_cells (ox oy : Int) (coords : List (Int × Int)) (g : Game)
    (hg : binaryCells g) : binaryCells (set_cells g ox oy coords) := by
  induction coords generalizing g with
  | nil => exact hg
  | cons c cs ih => exact ih _ (binaryCells_set_cell g (ox + c.1) (oy + c.2) 1 hg)

theorem binaryCells_pattern_load (g : Game) (t : PatternType) (x y : Int)
    (hg : binaryCells g) : binaryCells (pattern_load g t x y) := by
  cases t <;>
    exact binaryCells_set_cells x y _ g hg

/-- One core mutation of a `Game`, as listed in the invariant claim. -/
inductive Op where
  | set (x y alive : Int)
  | clear
  | randomize (density : ℚ) (draw : Int → Int → ℚ)
  | step
  | place (t : PatternType) (x y : Int)

/-- Apply one operation to the grid. -/
def applyOp (g : Game) : Op → Game
  | .set x y alive => game_set_cell g x y alive
  | .clear => game_clear g
  | .randomize density draw => game_randomize g density draw
  | .step => game_step g
  | .place t x y => pattern_load g t x y

/-- Apply a sequence of operations from left to right. -/
def runOps (g : Game) (ops : List Op) : Game := ops.foldl applyOp g

theorem binaryCells_applyOp (g : Game) (op : Op) (hg : binaryCells g) :
    binaryCells (applyOp g op) := by
  cases op with
  | set x y alive => exact binaryCells_set_cell g x y alive hg
  | clear => exact binaryCells_clear g
  | randomize density draw => exact binaryCells_randomize g density draw
  | step => exact binaryCells_step g
  | place t x y => exact binaryCells_pattern_load g t x y hg

theorem binaryCells_runOps (ops : List Op) (g : Game) (hg : binaryCells g) :
    binaryCells (runOps g ops) := by
  induction ops generalizing g with
  | nil => exact hg
  | cons op ops ih => exact ih _ (binaryCells_applyOp g op hg)

/-- C9: on a grid produced by `create`, after any sequence of
`set_cell`, `clear`, `randomize`, `step` and pattern placement, every
cell of the current-generation buffer holds exactly 0 or 1. -/
theorem binary_cell_invariant (width height : Int) (allocOk : Bool) (g0 : Game)
    (ops : List Op) (hc : game_create width height allocOk = some g0) :
    binaryCells (runOps g0 ops) := by
  apply binaryCells_runOps
  unfold game_create at hc
  split at hc
  · cases hc
    intro v hv
    exact Or.inl (List.eq_of_mem_replicate hv)
  · cases hc

theorem binary_cell_invariant_witness :
    binaryCells (runOps gOne [Op.set 0 0 5, Op.step]) :=
  binary_cell_invariant 1 1 true gOne [Op.set 0 0 5, Op.step] rfl

/-! ### Claims about `game_create` -/

/-- C2 counterexample: the claim says `create(width, height)` fails
whenever `width ≤ 0` or `height ≤ 0`, but `game_create` never inspects
the dimensions.  At `width = -2`, `height = -3` the computed size is
`(-2) * (-3) = 6`, the allocations succeed, and a `Game` (with negative
stored dimensions) is returned — not a failure. -/
theorem create_nonpositive_dims_counterexample :
    ((-2 : Int) ≤ 0 ∨ (-3 : Int) ≤ 0) ∧ (game_create (-2) (-3) true).isSome = true :=
  ⟨Or.inl (by decide), rfl⟩

/-- C2 (amended): `game_create` performs no dimension validation at
all — for every `width` and `height`, including nonpositive ones, it
returns a `Game` whenever buffer allocation succeeds, and it returns
the failure outcome exactly when allocation fails. -/
theorem create_fails_iff_alloc_fails (width height : Int) (allocOk : Bool) :
    game_create width height allocOk = none ↔ allocOk = false := by
  cases allocOk <;> simp [game_create]

/-! ### Claims about the pattern catalog's name resolution -/

/-- C6: `lookup("gosper")` and `lookup("gosper_gun")` both succeed
(return 1) and resolve to the same pattern identifier
(`PATTERN_GOSPER_GUN`), while `lookup("nonexistent")` — a name that is
none of the recognized ones — reports not-found (returns 0). -/
theorem lookup_gosper_aliases_and_not_found (out : PatternType) :
    pattern_from_name "gosper" out = (1, PatternType.PATTERN_GOSPER_GUN) ∧
      pattern_from_name "gosper_gun" out = (1, PatternType.PATTERN_GOSPER_GUN) ∧
      (pattern_from_name "nonexistent" out).1 = 0 :=
  ⟨rfl, rfl, rfl⟩

/-- C10: whenever name resolution fails (`pattern_from_name` returns
0), the contents of `*out` are left exactly as they were before the
call — nothing is written through the out-pointer on the not-found
path. -/
theorem pattern_from_name_miss_preserves_out (name : String) (out : PatternType)
    (h : (pattern_from_name name out).1 = 0) :
    (pattern_from_name name out).2 = out := by
  unfold pattern_from_name at h ⊢
  repeat' split at h
  all_goals simp_all

theorem pattern_from_name_miss_preserves_out_witness :
    (pattern_from_name "nonexistent" PatternType.PATTERN_GLIDER).1 = 0 ∧
      (pattern_from_name "nonexistent" PatternType.PATTERN_GLIDER).2 =
        PatternType.PATTERN_GLIDER :=
  ⟨by decide,
    pattern_from_name_miss_preserves_out "nonexistent" PatternType.PATTERN_GLIDER (by decide)⟩

/-! ### Dimension preservation -/

theorem game_set_cell_width (g : Game) (x y alive : Int) :
    (game_set_cell g x y alive).width = g.width := by
  unfold game_set_cell; split <;> rfl

theorem game_set_cell_height (g : Game) (x y alive : Int) :
    (game_set_cell g x y alive).height = g.height := by
  unfold game_set_cell; split <;> rfl

theorem set_cells_width (ox oy : Int) (coords : List (Int × Int)) (g : Game) :
    (set_cells g ox oy coords).width = g.width := by
  induction coords generalizing g with
  | nil => rfl
  | cons c cs ih => rw [set_cells, List.foldl_cons, ← set_cells, ih, game_set_cell_width]

theorem set_cells_height (ox oy : Int) (coords : List (Int × Int)) (g : Game) :
    (set_cells g ox oy coords).height = g.height := by
  induction coords generalizing g with
  | nil => rfl
  | cons c cs ih => rw [set_cells, List.foldl_cons, ← set_cells, ih, game_set_cell_height]

theorem pattern_load_width (g : Game) (t : PatternType) (x y : Int) :
    (pattern_load g t x y).width = g.width := by
  cases t <;>
    simp [pattern_load, place_glider, place_blinker, place_toad, place_beacon,
      place_pulsar, place_gosper_gun, set_cells_width]

theorem pattern_load_height (g : Game) (t : PatternType) (x y : Int) :
    (pattern_load g t x y).height = g.height := by
  cases t <;>
    simp [pattern_load, place_glider, place_blinker, place_toad, place_beacon,
      place_pulsar, place_gosper_gun, set_cells_height]

/-- C8: none of `set_cell`, `clear`, `randomize`, `step`, or pattern
placement changes the grid's `width` or `height`: both dimensions are
fixed for the `Game`'s lifetime. -/
theorem dims_fixed_for_lifetime (g : Game) (x y alive : Int) (density : ℚ)
    (draw : Int → Int → ℚ) (t : PatternType) (px py : Int) :
    ((game_set_cell g x y alive).width = g.width ∧
        (game_set_cell g x y alive).height = g.height) ∧
      ((game_clear g).width = g.width ∧ (game_clear g).height = g.height) ∧
      ((game_randomize g density draw).width = g.width ∧
        (game_randomize g density draw).height = g.height) ∧
      ((game_step g).width = g.width ∧ (game_step g).height = g.height) ∧
      ((pattern_load g t px py).width = g.width ∧
        (pattern_load g t px py).height = g.height) :=
  ⟨⟨game_set_cell_width g x y alive, game_set_cell_height g x y alive⟩,
    ⟨rfl, rfl⟩, ⟨rfl, rfl⟩, ⟨rfl, rfl⟩,
    ⟨pattern_load_width g t px py, pattern_load_height g t px py⟩⟩

end DosDoseis
